import Mathlib

/-!
Verification of the duplicate-issue detection pipeline and the retryable
error-classification framework of the `zapier-ai-agent-node` repository.

The TypeScript sources `src/utils/error-handler.ts` and
`src/duplicate-detection.ts` are shallowly embedded below.  JavaScript
numbers appearing as similarity scores are modelled as rationals, with an
explicit NaN value (`JNum.nan`) for the non-numeric coercions that
JavaScript arithmetic can produce.  Asynchronous collaborator calls
(OpenAI, the Jira gateway fetch, terminal prompts) are modelled as oracle
parameters: each call site receives the outcome the external collaborator
would have produced.  A JavaScript exception is modelled as `Except JsErr`;
code that cannot throw is given a plain (total) type.
-/

namespace ZapierAgent

/-! ## Error model (`utils/error-handler.ts`) -/

/-- `ErrorType` enum from `error-handler.ts`. -/
inductive ErrorType where
  | NETWORK_ERROR
  | AUTHENTICATION_ERROR
  | VALIDATION_ERROR
  | JIRA_API_ERROR
  | OPENAI_ERROR
  | UNKNOWN_ERROR
deriving DecidableEq, Repr

/-- `AppError` class: message, type tag, retryability flag, optional status code. -/
structure AppError where
  message : String
  type : ErrorType
  isRetryable : Bool
  statusCode : Option Nat
deriving DecidableEq, Repr

/-- A JavaScript error value reaching the handler: either an already
classified `AppError` (the `instanceof AppError` branch) or an arbitrary
`Error` carrying only a message. -/
inductive JsErr where
  | app (a : AppError)
  | err (message : String)
deriving DecidableEq, Repr

/-- `hay` starts with `pat` (character lists). -/
def listStarts : List Char → List Char → Bool
  | _, [] => true
  | [], _ :: _ => false
  | h :: hs, p :: ps => h = p && listStarts hs ps

/-- `pat` occurs contiguously inside `hay` (character lists). -/
def listHasSub (hay pat : List Char) : Bool :=
  match hay with
  | [] => pat.isEmpty
  | _ :: t => listStarts hay pat || listHasSub t pat

/-- JavaScript `String.prototype.includes`. -/
def jsIncludes (s pat : String) : Bool :=
  listHasSub s.toList pat.toList

/-- `String.prototype.toLowerCase`, as the character-wise ASCII case map
(all the indicator patterns involved are ASCII). -/
def jsToLower (s : String) : String :=
  String.mk (s.toList.map Char.toLower)

/-- `ErrorHandler.normalizeError`: pattern match over the lower-cased
message, first match wins; an `AppError` input passes through unchanged. -/
def normalizeError : JsErr → AppError
  | .app a => a
  | .err msg =>
    let message := jsToLower msg
    if jsIncludes message "econnrefused" || jsIncludes message "enotfound" ||
        jsIncludes message "timeout" then
      ⟨"Network connection failed. Please check your internet connection and try again.",
        .NETWORK_ERROR, true, none⟩
    else if jsIncludes message "401" || jsIncludes message "unauthorized" ||
        jsIncludes message "invalid api key" then
      ⟨"Authentication failed. Please check your API credentials in the .env file.",
        .AUTHENTICATION_ERROR, false, none⟩
    else if jsIncludes message "400" || jsIncludes message "404" ||
        jsIncludes message "403" then
      ⟨"Jira API error. Please check your project permissions and try again.",
        .JIRA_API_ERROR, true, none⟩
    else if jsIncludes message "openai" || jsIncludes message "gpt" then
      ⟨"OpenAI API error. Please check your API key and quota.",
        .OPENAI_ERROR, true, none⟩
    else
      ⟨msg, .UNKNOWN_ERROR, true, none⟩

/-- The retry-attempt map `retryAttempts : Map<string, number>`, as an
association list with unique keys. -/
abbrev RetryMap := List (String × Nat)

/-- `Map.prototype.get` (first matching key). -/
def rmGet (st : RetryMap) (k : String) : Option Nat :=
  match st with
  | [] => none
  | (k', v) :: t => if k' = k then some v else rmGet t k

/-- `Map.prototype.set`: replace an existing entry or append a new one. -/
def rmSet (st : RetryMap) (k : String) (v : Nat) : RetryMap :=
  match st with
  | [] => [(k, v)]
  | (k', v') :: t => if k' = k then (k, v) :: t else (k', v') :: rmSet t k v

/-- `Map.prototype.delete`. -/
def rmDelete (st : RetryMap) (k : String) : RetryMap :=
  match st with
  | [] => []
  | (k', v') :: t => if k' = k then rmDelete t k else (k', v') :: rmDelete t k

/-- JavaScript `x || dflt` on an optional string (`undefined` and the empty
string are falsy). -/
def jsOrStr (s : Option String) (dflt : String) : String :=
  match s with
  | none => dflt
  | some v => if v = "" then dflt else v

/-- `ErrorHandler.maxRetries`. -/
def ehMaxRetries : Nat := 3

/-- `ErrorHandler.shouldRetry`: the per-context attempt count is below the
maximum (`retryAttempts.get(context) || 0`). -/
def shouldRetry (st : RetryMap) (context : String) : Bool :=
  (rmGet st context).getD 0 < ehMaxRetries

/-- The user reply confirms a retry: `response.toLowerCase().startsWith('y')`. -/
def confirmsRetry (response : String) : Bool :=
  listStarts (jsToLower response).toList "y".toList

/-- `ErrorHandler.promptForRetry`: increments the context's attempt counter,
then either returns true after the backoff delay (confirmation) or deletes
the counter and returns false (decline).  The terminal prompt is an oracle
input `response`; the countdown delay has no observable effect. -/
def promptForRetry (st : RetryMap) (context : String) (response : String) :
    Bool × RetryMap :=
  let attempts := (rmGet st context).getD 0
  let st1 := rmSet st context (attempts + 1)
  if confirmsRetry response then
    (true, st1)
  else
    (false, rmDelete st1 context)

/-- `ErrorHandler.handleError`: normalizes, displays (no observable effect),
and prompts for a retry when the error is retryable and the budget allows;
otherwise returns false with the map untouched. -/
def handleError (error : JsErr) (context : Option String) (st : RetryMap)
    (response : String) : Bool × RetryMap :=
  let appError := normalizeError error
  let ctx := jsOrStr context "default"
  if appError.isRetryable && shouldRetry st ctx then
    promptForRetry st ctx response
  else
    (false, st)

/-- `ErrorHandler.resetRetryCount`. -/
def resetRetryCount (st : RetryMap) (context : String) : RetryMap :=
  rmDelete st context

/-- Loop body of `APIWrapper.makeRequest`.  `remaining` counts the attempts
still allowed after the current one (`maxRetries - attempt`), `attempt` is
the current zero-based attempt index.  The operation and the user replies
are oracles indexed by attempt.  Returns the result, the final retry map,
and the number of times the operation was invoked. -/
def makeRequestGo {α : Type} (op : Nat → Except JsErr α) (ctx : String)
    (response : Nat → String) :
    Nat → Nat → RetryMap → Except JsErr α × RetryMap × Nat
  | 0, attempt, st =>
    -- attempt === maxRetries: do not retry on the last attempt, rethrow
    (match op attempt with
     | .ok v => (.ok v, st, 1)
     | .error e => (.error e, st, 1))
  | remaining + 1, attempt, st =>
    match op attempt with
    | .ok v => (.ok v, st, 1)
    | .error e =>
      match handleError e (some ctx) st (response attempt) with
      | (true, st') =>
        let r := makeRequestGo op ctx response remaining (attempt + 1) st'
        (r.1, r.2.1, r.2.2 + 1)
      | (false, st') => (.error e, st', 1)

/-- `APIWrapper.makeRequest`: run the operation, deferring to
`ErrorHandler.handleError` on failure, for at most `maxRetries + 1` attempts. -/
def makeRequest {α : Type} (op : Nat → Except JsErr α) (ctx : String)
    (maxRetries : Nat) (response : Nat → String) (st : RetryMap) :
    Except JsErr α × RetryMap × Nat :=
  makeRequestGo op ctx response maxRetries 0 st

/-- Decidable equality of `Except` values (used only to evaluate closed
statements). -/
instance {ε α : Type} [DecidableEq ε] [DecidableEq α] :
    DecidableEq (Except ε α) := fun x y =>
  match x, y with
  | .ok a, .ok b => decidable_of_iff (a = b) (by simp)
  | .error a, .error b => decidable_of_iff (a = b) (by simp)
  | .ok _, .error _ => isFalse (fun hc => Except.noConfusion hc)
  | .error _, .ok _ => isFalse (fun hc => Except.noConfusion hc)

/-! ## JavaScript value model for parsed generation-service replies -/

/-- A JavaScript number: either NaN or an exact value (modelled as a
rational; the scores involved are small decimal literals). -/
inductive JNum where
  | nan
  | val (q : ℚ)
deriving DecidableEq, Repr

/-- A JSON scalar as produced by `JSON.parse`, as far as the similarity
field is concerned.  A string carries `toNum`, the value JavaScript
`ToNumber` coercion would give it (`none` for a non-numeric string, which
coerces to NaN). -/
inductive JSVal where
  | num (q : ℚ)
  | str (s : String) (toNum : Option ℚ)
  | bool (b : Bool)
  | jnull
deriving DecidableEq, Repr

/-- JavaScript falsiness of a JSON scalar (`0`, `""`, `false`, `null`). -/
def jsFalsy : JSVal → Bool
  | .num q => q = 0
  | .str s _ => s = ""
  | .bool b => !b
  | .jnull => true

/-- `v || 0` on a possibly absent JSON scalar (`undefined` is falsy). -/
def jsOrZero (v : Option JSVal) : JSVal :=
  match v with
  | none => .num 0
  | some w => if jsFalsy w then .num 0 else w

/-- JavaScript `ToNumber` on a JSON scalar. -/
def toNumber : JSVal → JNum
  | .num q => .val q
  | .str _ t =>
    (match t with
     | some q => .val q
     | none => .nan)
  | .bool b => .val (if b then 1 else 0)
  | .jnull => .val 0

/-- `Math.max` on two numbers (NaN-propagating). -/
def jsMax (a b : JNum) : JNum :=
  match a, b with
  | .val x, .val y => .val (max x y)
  | _, _ => .nan

/-- `Math.min` on two numbers (NaN-propagating). -/
def jsMin (a b : JNum) : JNum :=
  match a, b with
  | .val x, .val y => .val (min x y)
  | _, _ => .nan

/-- `Math.min(Math.max(v || 0, 0), 1)` applied to the raw similarity field. -/
def clamp01 (v : Option JSVal) : JNum :=
  jsMin (jsMax (toNumber (jsOrZero v)) (.val 0)) (.val 1)

/-! ## Data model (`duplicate-detection.ts`) -/

/-- A well-formed candidate issue record returned by the tracker search:
`{ key, fields: { summary, description?, status: { name }, priority?: { name } } }`. -/
structure Issue where
  key : String
  summary : String
  description : Option String
  status : String
  priority : Option String
deriving DecidableEq, Repr

/-- A raw record from the untyped search response (`any[]`): either a
well-formed issue or a malformed record whose `fields` dereference throws
a TypeError. -/
inductive RawIssue where
  | wellFormed (issue : Issue)
  | malformed
deriving DecidableEq, Repr

/-- The extracted issue list when every record is well formed; `none` as
soon as one record is malformed (dereferencing it throws). -/
def getIssues? : List RawIssue → Option (List Issue)
  | [] => some []
  | .wellFormed i :: t => (getIssues? t).map (i :: ·)
  | .malformed :: _ => none

/-- The TypeError raised when dereferencing `issue.fields` on a malformed
record. -/
def typeErr : JsErr :=
  .err "Cannot read properties of undefined"

/-- One entry of the parsed generation-service reply array.
`issueIndex` is the entry index when it is exactly the natural number the
strict comparison `a.issueIndex === index + 1` can match, and `none`
otherwise (absent, non-number, negative or fractional values never satisfy
the strict equality); `similarity` is the raw JSON scalar, `none` when
absent; `reason` is `none` when absent (non-string reasons are not
modelled). -/
structure ParsedEntry where
  issueIndex : Option Nat
  similarity : Option JSVal
  reason : Option String
deriving DecidableEq, Repr

/-- Outcome of one `openai.chat.completions.create` call inside
`analyzeBatch`: the call rejects; the reply has falsy content
(`!aiResponse`); `JSON.parse` throws or yields a non-array (the inner
catch); or it yields an array of entries. -/
inductive GenOutcome where
  | gthrow
  | gnoContent
  | gunparsable
  | gparsed (entries : List ParsedEntry)
deriving Repr

/-- `SimilarIssue` record of `duplicate-detection.ts`. -/
structure SimilarIssue where
  key : String
  summary : String
  description : String
  status : String
  priority : String
  similarity : JNum
  reason : String
deriving DecidableEq, Repr

/-- The issue the user is about to create (title/description pair). -/
structure NewIssue where
  title : String
  description : String
deriving DecidableEq, Repr

/-- `DuplicateAnalysis` record. -/
structure DuplicateAnalysis where
  hasPotentialDuplicates : Bool
  similarIssues : List SimilarIssue
  recommendations : List String
deriving DecidableEq, Repr

/-! ## Similarity scorer -/

/-- `createFallbackSimilarity`. -/
def createFallbackSimilarity (issue : Issue) : SimilarIssue :=
  { key := issue.key
    summary := issue.summary
    description := jsOrStr issue.description ""
    status := issue.status
    priority := jsOrStr issue.priority "Unknown"
    similarity := .val (mkRat 1 10)
    reason := "Unable to perform detailed analysis" }

/-- The default object `{ similarity: 0.1, reason: 'Analysis failed' }`
substituted when no reply entry matches a candidate's positional index. -/
def defaultAnalysis : ParsedEntry :=
  ⟨none, some (.num (mkRat 1 10)), some "Analysis failed"⟩

/-- One result row of the parsed-reply branch of `analyzeBatch`:
`analysisResults.find(a => a.issueIndex === index + 1) || default`, then
the clamped similarity and defaulted reason. -/
def parsedRow (entries : List ParsedEntry) (idx : Nat) (issue : Issue) :
    SimilarIssue :=
  let analysis :=
    (entries.find? (fun a => a.issueIndex = some (idx + 1))).getD
      defaultAnalysis
  { key := issue.key
    summary := issue.summary
    description := jsOrStr issue.description ""
    status := issue.status
    priority := jsOrStr issue.priority "Unknown"
    similarity := clamp01 analysis.similarity
    reason := jsOrStr analysis.reason "AI analysis completed" }

/-- `analyzeBatch`.  Building the prompt dereferences `issue.fields` on
every batch member, so a malformed record makes both the try block and the
catch handler (which maps `createFallbackSimilarity` over the same batch)
throw; that is the only way this function throws.  The prompt text itself
is not modelled: the oracle `outcome` stands for the service's reply to it. -/
def analyzeBatch (outcome : GenOutcome) (issueBatch : List RawIssue) :
    Except JsErr (List SimilarIssue) :=
  match getIssues? issueBatch with
  | none => .error typeErr
  | some issues =>
    match outcome with
    | .gthrow => .ok (issues.map createFallbackSimilarity)
    | .gnoContent => .ok (issues.map createFallbackSimilarity)
    | .gunparsable => .ok (issues.map createFallbackSimilarity)
    | .gparsed entries =>
      .ok (issues.enum.map (fun p => parsedRow entries p.1 p.2))

/-- `b.similarity > a.similarity` as used by the sort comparator (false on
NaN, which the preceding positivity filter has already removed). -/
def simGT (b a : SimilarIssue) : Bool :=
  match b.similarity, a.similarity with
  | .val x, .val y => decide (y < x)
  | _, _ => false

/-- Stable descending insertion: `x` goes before the first element whose
similarity is not greater than its own, so equal scores keep batch order. -/
def insertDesc (x : SimilarIssue) : List SimilarIssue → List SimilarIssue
  | [] => [x]
  | y :: ys => if simGT y x then y :: insertDesc x ys else x :: y :: ys

/-- Stable sort by descending similarity
(`.sort((a, b) => b.similarity - a.similarity)`). -/
def sortDesc : List SimilarIssue → List SimilarIssue
  | [] => []
  | x :: xs => insertDesc x (sortDesc xs)

/-- `result.similarity > 0` (false on NaN). -/
def simPos (r : SimilarIssue) : Bool :=
  match r.similarity with
  | .val q => decide (0 < q)
  | .nan => false

/-- Batch loop of `analyzeIssueSimilarity`: slices of 5, one generation
call per batch (the 500ms inter-batch delay has no observable effect).
`fuel` is an upper bound on the number of batches; each step consumes at
least one issue, so `fuel = issues.length` never runs out. -/
def analyzeGo (gen : Nat → GenOutcome) :
    Nat → Nat → List RawIssue → Except JsErr (List SimilarIssue)
  | _, _, [] => .ok []
  | 0, _, _ :: _ => .ok []
  | fuel + 1, b, x :: rest => do
    let batchResults ← analyzeBatch (gen b) (x :: rest.take 4)
    let more ← analyzeGo gen fuel (b + 1) (rest.drop 4)
    .ok (batchResults ++ more)

/-- `analyzeIssueSimilarity`: batched scoring, then keep strictly positive
similarities and sort descending. -/
def analyzeIssueSimilarity (gen : Nat → GenOutcome)
    (existingIssues : List RawIssue) : Except JsErr (List SimilarIssue) := do
  let results ← analyzeGo gen existingIssues.length 0 existingIssues
  .ok (sortDesc (results.filter simPos))

/-! ## Keyword extraction and candidate search -/

/-- Worker for `jsSplitWS`, scanning characters left to right.  `prevWS`
records whether we are inside a separator run (so further whitespace is
absorbed into it); `cur` holds the characters of the token being built,
reversed. -/
def splitWSGo : Bool → List Char → List Char → List String
  | _, [], cur => [String.mk cur.reverse]
  | prevWS, c :: rest, cur =>
    if c.isWhitespace then
      if prevWS then splitWSGo true rest cur
      else String.mk cur.reverse :: splitWSGo true rest []
    else splitWSGo false rest (c :: cur)

/-- JavaScript `text.split(/\s+/)`: split on maximal whitespace runs,
keeping the empty fragments that leading or trailing whitespace produces. -/
def jsSplitWS (s : String) : List String :=
  splitWSGo false s.toList []

/-- The regex test `/^\d+$/` (a non-empty all-digit token). -/
def pureNumeric (w : String) : Bool :=
  !w.toList.isEmpty && w.toList.all Char.isDigit

/-- `extractKeywordsFallback`: lower-case `title + ' ' + description`,
split on whitespace, keep tokens longer than 3 characters that are not
purely numeric, take the first five, defaulting to `['issue']`. -/
def extractKeywordsFallback (title description : String) : List String :=
  let text := jsToLower (title ++ " " ++ description)
  let words := (((jsSplitWS text).filter (fun word => word.length > 3)).filter
    (fun word => !pureNumeric word)).take 5
  if words.length > 0 then words else ["issue"]

/-- Worker for `specTokens`: collect the maximal non-empty runs of
non-whitespace characters. -/
def specTokensGo : List Char → List Char → List String
  | [], [] => []
  | [], cur => [String.mk cur.reverse]
  | c :: rest, cur =>
    if c.isWhitespace then
      if cur.isEmpty then specTokensGo rest []
      else String.mk cur.reverse :: specTokensGo rest []
    else specTokensGo rest (c :: cur)

/-- Spec-side notion of the whitespace-separated tokens of a string: the
maximal non-empty runs of non-whitespace characters, in order.  Stated
from the specification wording; to be compared with the source's
`text.split(/\s+/)`, which can additionally produce empty fragments. -/
def specTokens (s : String) : List String :=
  specTokensGo s.toList []

/-- The keyword-fallback contract as the specification words it: the first
at most five whitespace-separated tokens of the lower-cased concatenation
that are longer than 3 characters and not purely numeric, defaulting to
`["issue"]` when no token qualifies. -/
def specKeywords (title description : String) : List String :=
  let toks := ((specTokens (jsToLower (title ++ " " ++ description))).filter
    (fun w => w.length > 3 && !pureNumeric w)).take 5
  if toks = [] then ["issue"] else toks

/-- Outcome of the keyword-extraction OpenAI call in `extractKeywords`:
the call rejects; the reply content is falsy; `JSON.parse` throws; the
parse yields a non-array; or it yields an array of keywords. -/
inductive KeywordOutcome where
  | kwThrow
  | kwNoContent
  | kwUnparsable
  | kwNonArray
  | kwArray (ks : List String)

/-- `extractKeywords`: use the service reply when it parses as an array
(sliced to five), otherwise fall back to the local heuristic. -/
def extractKeywords (outcome : KeywordOutcome) (title description : String) :
    List String :=
  match outcome with
  | .kwThrow => extractKeywordsFallback title description
  | .kwNoContent => extractKeywordsFallback title description
  | .kwUnparsable => extractKeywordsFallback title description
  | .kwNonArray => extractKeywordsFallback title description
  | .kwArray ks => ks.take 5

/-- Outcome of one `fetch` of the search endpoint: the fetch (or reading
the JSON body) throws; the response is not ok; or it is ok with a body
whose `issues` field is `issues?` (absent means `data.issues || []`). -/
inductive FetchOutcome where
  | fthrow
  | notOk
  | okay (issues : Option (List RawIssue))

/-- The JQL string built by `searchSimilarIssues`. -/
def searchJql (projectKey : String) (keywords : List String) : String :=
  "project = \"" ++ projectKey ++ "\" AND (" ++
    String.intercalate " OR " (keywords.map (fun k => "text ~ \"" ++ k ++ "\"")) ++ ")"

/-- The free-text query built by `fallbackSearch` from the first three
space-separated words of the title (`title.split(' ').slice(0, 3).join(' ')`). -/
def fallbackQuery (projectKey title : String) : String :=
  "project:" ++ projectKey ++ " " ++
    String.intercalate " " ((title.splitOn " ").take 3)

/-- The external collaborators of the duplicate-detection service, as
oracles.  The two search oracles may depend on the query string sent;
the batch-scoring oracle is indexed by batch number. -/
structure Env where
  keywordsOutcome : KeywordOutcome
  searchOutcome : String → FetchOutcome
  fallbackOutcome : String → FetchOutcome
  gen : Nat → GenOutcome

/-- `fallbackSearch`: simplified free-text query; every failure path
(thrown fetch, non-ok response) degrades to the empty list. -/
def fallbackSearch (env : Env) (projectKey title : String) : List RawIssue :=
  match env.fallbackOutcome (fallbackQuery projectKey title) with
  | .okay issues => issues.getD []
  | .notOk => []
  | .fthrow => []

/-- `searchSimilarIssues`: keyword-based JQL search, falling back to
`fallbackSearch` when the fetch throws or responds non-ok.  Never throws. -/
def searchSimilarIssues (env : Env) (projectKey title description : String) :
    List RawIssue :=
  let keywords := extractKeywords env.keywordsOutcome title description
  match env.searchOutcome (searchJql projectKey keywords) with
  | .okay issues => issues.getD []
  | .notOk => fallbackSearch env projectKey title
  | .fthrow => fallbackSearch env projectKey title

/-! ## Duplicate analysis orchestrator -/

/-- `issue.similarity > c` (false on NaN). -/
def simGtQ (r : SimilarIssue) (c : ℚ) : Bool :=
  match r.similarity with
  | .val q => decide (c < q)
  | .nan => false

/-- `issue.similarity <= c` (false on NaN). -/
def simLeQ (r : SimilarIssue) (c : ℚ) : Bool :=
  match r.similarity with
  | .val q => decide (q ≤ c)
  | .nan => false

/-- `generateRecommendations`: banded guidance for high (`> 0.8`) and
medium (`> 0.6` and `<= 0.8`) similarity, always closing with the review
prompt; a single affirmative line when nothing was passed in. -/
def generateRecommendations (similarIssues : List SimilarIssue) : List String :=
  if similarIssues.length = 0 then
    ["✅ No similar issues found. Safe to proceed."]
  else
    let highSimilarity := similarIssues.filter (fun issue => simGtQ issue (mkRat 8 10))
    let mediumSimilarity := similarIssues.filter
      (fun issue => simGtQ issue (mkRat 6 10) && simLeQ issue (mkRat 8 10))
    (if highSimilarity.length > 0 then
      ["⚠️  High similarity detected! Consider these actions:",
       "   • Check if the existing issue can be updated instead",
       "   • Add a comment to the existing issue",
       "   • Create a subtask if this is a specific aspect"]
     else []) ++
    (if mediumSimilarity.length > 0 then
      ["💡 Related issues found. Consider:",
       "   • Linking issues if they are related",
       "   • Adding references in the description",
       "   • Ensuring the new issue adds unique value"]
     else []) ++
    ["📋 Review the similar issues below before proceeding."]

/-- Steps 3 and 4 of `checkForDuplicates`: keep results with similarity
strictly greater than 0.6, flag duplicates iff any remain, and build the
recommendations. -/
def duplicateVerdict (analysisResults : List SimilarIssue) : DuplicateAnalysis :=
  let significantMatches := analysisResults.filter (fun r => simGtQ r (mkRat 6 10))
  { hasPotentialDuplicates := decide (significantMatches.length > 0)
    similarIssues := significantMatches
    recommendations := generateRecommendations significantMatches }

/-- The verdict returned when the search finds nothing. -/
def noResultsVerdict : DuplicateAnalysis :=
  ⟨false, [], ["✅ No similar issues found. Safe to proceed with creation."]⟩

/-- The safe fallback returned by the catch-all of `checkForDuplicates`. -/
def cautionVerdict : DuplicateAnalysis :=
  ⟨false, [], ["⚠️ Unable to check for duplicates. Proceed with caution."]⟩

/-- The try block of `checkForDuplicates`: search (total), short-circuit on
an empty result, otherwise score and build the verdict.  The only throwing
step is the similarity analysis (on malformed search records). -/
def checkForDuplicatesCore (env : Env) (projectKey title description : String) :
    Except JsErr DuplicateAnalysis := do
  let searchResults := searchSimilarIssues env projectKey title description
  if searchResults.length = 0 then
    .ok noResultsVerdict
  else do
    let analysisResults ← analyzeIssueSimilarity env.gen searchResults
    .ok (duplicateVerdict analysisResults)

/-- `checkForDuplicates`: the catch-all converts any internal failure into
the safe fallback (after `errorHandler.handleError`, whose boolean result
the source ignores). -/
def checkForDuplicates (env : Env) (projectKey title description : String) :
    DuplicateAnalysis :=
  match checkForDuplicatesCore env projectKey title description with
  | .ok r => r
  | .error _ => cautionVerdict

/-! ## Concrete instances used in closed statements -/

/-- A sample well-formed candidate issue. -/
def issueK1 : Issue := ⟨"K-1", "Summary one", none, "Open", none⟩

/-- A well-formed candidate issue with the given key. -/
def keyedIssue (k : String) : Issue := ⟨k, "Summary " ++ k, none, "Open", none⟩

/-- The `SimilarIssue` record with the given candidate fields, similarity
and reason (the shared shape of every row the scorer emits). -/
def rowOf (issue : Issue) (s : JNum) (reason : String) : SimilarIssue :=
  { key := issue.key
    summary := issue.summary
    description := jsOrStr issue.description ""
    status := issue.status
    priority := jsOrStr issue.priority "Unknown"
    similarity := s
    reason := reason }

/-- A sample similarity result with the given score. -/
def mkSim (q : ℚ) : SimilarIssue :=
  ⟨"PROJ-9", "a summary", "", "Open", "Unknown", .val q, "close match"⟩

/-- The result row the parsed branch of `analyzeBatch` produces for a
candidate whose reply entry carries the numeric score `s` (in range and
non-zero, so the clamp leaves it unchanged) and the reason `reason`. -/
def scoredRow (issue : Issue) (s : ℚ) (reason : Option String) : SimilarIssue :=
  { key := issue.key
    summary := issue.summary
    description := jsOrStr issue.description ""
    status := issue.status
    priority := jsOrStr issue.priority "Unknown"
    similarity := .val s
    reason := jsOrStr reason "AI analysis completed" }

/-- An environment whose search returns a single malformed record, making
the similarity analysis throw inside the try block of `checkForDuplicates`. -/
def envMalformed : Env :=
  ⟨.kwThrow, fun _ => .okay (some [.malformed]), fun _ => .fthrow, fun _ => .gthrow⟩

/-- A generation oracle for the two-batch scenario: the first batch parses
with concrete scores, the second call rejects. -/
def genTwoBatch : Nat → GenOutcome := fun b =>
  if b = 0 then
    .gparsed [⟨some 1, some (.num (mkRat 9 10)), some "nearly identical"⟩,
      ⟨some 2, some (.num (mkRat 8 10)), some "very similar"⟩,
      ⟨some 3, some (.num (mkRat 7 10)), some "likely duplicate"⟩,
      ⟨some 4, some (.num (mkRat 5 10)), some "related"⟩,
      ⟨some 5, some (.num (mkRat 3 10)), some "some overlap"⟩]
  else .gthrow

/-! # Theorems -/

/-- Deleting a context removes its counter. -/
theorem rmGet_rmDelete (st : RetryMap) (k : String) :
    rmGet (rmDelete st k) k = none := by
  induction st with
  | nil => rfl
  | cons h t ih =>
    obtain ⟨k', v'⟩ := h
    by_cases hk : k' = k
    · simpa [rmDelete, hk] using ih
    · simpa [rmDelete, hk, rmGet] using ih

/-- C2 counterexample: the message "timeout" contains a network indicator,
is classified as `NETWORK_ERROR`, but `isRetryable` is `true`, not `false`
as the claim states. -/
theorem claim_C2_cex :
    (normalizeError (.err "timeout")).type = ErrorType.NETWORK_ERROR ∧
    (normalizeError (.err "timeout")).isRetryable ≠ false := by decide

/-- C2 (amended): for every error whose lower-cased message contains a
network indicator (connection refused, host not found, or timeout),
classification returns the Network `AppError` marked retryable
(`isRetryable = true`); network indicators are checked first, so this holds
whatever other indicators the message contains. -/
theorem claim_C2 (msg : String)
    (h : jsIncludes (jsToLower msg) "econnrefused" = true ∨
      jsIncludes (jsToLower msg) "enotfound" = true ∨
      jsIncludes (jsToLower msg) "timeout" = true) :
    normalizeError (.err msg) =
      ⟨"Network connection failed. Please check your internet connection and try again.",
        .NETWORK_ERROR, true, none⟩ := by
  unfold normalizeError
  rcases h with h | h | h <;> simp [h]

/-- C2 witness: a message containing both a network and an authentication
indicator is classified as Network (precedence) and retryable. -/
theorem claim_C2_witness :
    jsIncludes (jsToLower "timeout 401") "timeout" = true ∧
    normalizeError (.err "timeout 401") =
      ⟨"Network connection failed. Please check your internet connection and try again.",
        .NETWORK_ERROR, true, none⟩ :=
  ⟨by decide, claim_C2 "timeout 401" (Or.inr (Or.inr (by decide)))⟩

/-- C6 counterexample: with the counter already at the maximum (3), handling
a retryable error returns false but leaves the counter in the map (the
claim states it is cleared). -/
theorem claim_C6_cex :
    (handleError (.err "timeout") (some "dup") [("dup", 3)] "y").1 = false ∧
    rmGet (handleError (.err "timeout") (some "dup") [("dup", 3)] "y").2 "dup" =
      some 3 := by decide

/-- C6 (amended): on handling a classified retryable error, if the user
declines the retry prompt the context's counter is cleared and handle
returns false; when the attempt count has reached the maximum, handle
returns false but leaves the retry map (and hence the counter) unchanged. -/
theorem claim_C6 (error : JsErr) (context : String) (st : RetryMap)
    (response : String) (hc : context ≠ "")
    (hretry : (normalizeError error).isRetryable = true) :
    (confirmsRetry response = false → shouldRetry st context = true →
      (handleError error (some context) st response).1 = false ∧
      rmGet (handleError error (some context) st response).2 context = none) ∧
    (shouldRetry st context = false →
      handleError error (some context) st response = (false, st)) := by
  unfold handleError
  simp only [jsOrStr, hc, if_neg, hretry, Bool.true_and]
  constructor
  · intro hdecl hsr
    simp [hsr, promptForRetry, hdecl, rmGet_rmDelete]
  · intro hsr
    simp [hsr]

/-- C6 witness: a decline below the maximum clears the counter and returns
false; at the maximum the map is returned unchanged. -/
theorem claim_C6_witness :
    ((handleError (.err "timeout") (some "dup") [("dup", 1)] "n").1 = false ∧
      rmGet (handleError (.err "timeout") (some "dup") [("dup", 1)] "n").2 "dup" =
        none) ∧
    handleError (.err "timeout") (some "dup") [("dup", 3)] "y" =
      (false, [("dup", 3)]) :=
  ⟨(claim_C6 (.err "timeout") "dup" [("dup", 1)] "n" (by decide) (by decide)).1
      (by decide) (by decide),
   (claim_C6 (.err "timeout") "dup" [("dup", 3)] "y" (by decide) (by decide)).2
      (by decide)⟩

/-- C7: with retry budget `maxRetries = 3`, an operation failing on every
invocation with a retryable error and a user confirming every prompt is
invoked exactly 4 times; the fourth failure propagates unchanged (same
error value) and the final map shows exactly the 3 prompts that occurred;
`resetRetryCount` empties the counter, after which the same run repeats
identically (a full budget again). -/
theorem claim_C7 (e : JsErr) (ctx : String) (hc : ctx ≠ "")
    (hretry : (normalizeError e).isRetryable = true) :
    @makeRequest Unit (fun _ => .error e) ctx 3 (fun _ => "y") [] =
      (.error e, [(ctx, 3)], 4) ∧
    resetRetryCount [(ctx, 3)] ctx = [] ∧
    @makeRequest Unit (fun _ => .error e) ctx 3 (fun _ => "y")
      (resetRetryCount [(ctx, 3)] ctx) = (.error e, [(ctx, 3)], 4) := by
  have hy : confirmsRetry "y" = true := by decide
  have hreset : resetRetryCount [(ctx, 3)] ctx = ([] : RetryMap) := by
    simp [resetRetryCount, rmDelete]
  have hrun : @makeRequest Unit (fun _ => .error e) ctx 3 (fun _ => "y") [] =
      (.error e, [(ctx, 3)], 4) := by
    simp [makeRequest, makeRequestGo, handleError, jsOrStr, hc, hretry,
      shouldRetry, ehMaxRetries, rmGet, rmSet, promptForRetry, hy]
  exact ⟨hrun, hreset, by rw [hreset]; exact hrun⟩

/-- C7 witness at a concrete error and context. -/
theorem claim_C7_witness :
    @makeRequest Unit (fun _ => .error (.err "timeout")) "jira" 3 (fun _ => "y") [] =
      (.error (.err "timeout"), [("jira", 3)], 4) ∧
    resetRetryCount [("jira", 3)] "jira" = [] ∧
    @makeRequest Unit (fun _ => .error (.err "timeout")) "jira" 3 (fun _ => "y")
      (resetRetryCount [("jira", 3)] "jira") =
      (.error (.err "timeout"), [("jira", 3)], 4) :=
  claim_C7 (.err "timeout") "jira" (by decide) (by decide)

/-- C3: thresholding in the orchestrator is strict: `similarIssues` is
exactly the set of scorer results with similarity strictly above 0.6, and
`hasPotentialDuplicates` holds iff that set is non-empty; in particular a
result at exactly 0.6 is excluded and one at 0.61 is included. -/
theorem claim_C3 :
    (∀ rs : List SimilarIssue,
      (duplicateVerdict rs).similarIssues = rs.filter (fun r => simGtQ r (mkRat 6 10)) ∧
      ((duplicateVerdict rs).hasPotentialDuplicates = true ↔
        rs.filter (fun r => simGtQ r (mkRat 6 10)) ≠ [])) ∧
    (duplicateVerdict [mkSim (mkRat 6 10)]).similarIssues = [] ∧
    (duplicateVerdict [mkSim (mkRat 61 100)]).similarIssues = [mkSim (mkRat 61 100)] := by
  refine ⟨fun rs => ⟨rfl, ?_⟩, by decide, by decide⟩
  simp [duplicateVerdict, List.length_pos]

/-- Fragments produced by the two tokenizers agree once a filter that
rejects the empty string is applied: `split(/\s+/)` only adds empty
fragments at separator boundaries. -/
theorem splitWS_spec_filter (p : String → Bool) (hp : p "" = false) :
    ∀ l : List Char,
      (∀ cur, (splitWSGo false l cur).filter p = (specTokensGo l cur).filter p) ∧
      (splitWSGo true l []).filter p = (specTokensGo l []).filter p := by
  have hp' : p (String.mk []) = false := hp
  intro l
  induction l with
  | nil =>
    refine ⟨fun cur => ?_, ?_⟩
    · cases cur with
      | nil => simp [splitWSGo, specTokensGo, hp']
      | cons c cs => simp [splitWSGo, specTokensGo]
    · simp [splitWSGo, specTokensGo, hp']
  | cons c rest ih =>
    refine ⟨fun cur => ?_, ?_⟩
    · by_cases hws : c.isWhitespace
      · cases cur with
        | nil => simpa [splitWSGo, specTokensGo, hws, hp'] using ih.2
        | cons c' cs =>
          simp [splitWSGo, specTokensGo, hws, List.filter_cons, ih.2]
      · simpa [splitWSGo, specTokensGo, hws] using ih.1 (c :: cur)
    · by_cases hws : c.isWhitespace
      · simpa [splitWSGo, specTokensGo, hws] using ih.2
      · simpa [splitWSGo, specTokensGo, hws] using ih.1 [c]

/-- C9: the local fallback keyword extraction returns the first at most
five whitespace-separated tokens of the lower-cased concatenation that are
longer than 3 characters and not purely numeric, defaulting to
`["issue"]`; for title "Login fails!!!" and empty description it returns
exactly the qualifying tokens. -/
theorem claim_C9 :
    (∀ title description : String,
      extractKeywordsFallback title description = specKeywords title description) ∧
    extractKeywordsFallback "Login fails!!!" "" = ["login", "fails!!!"] := by
  refine ⟨fun title description => ?_, by decide⟩
  unfold extractKeywordsFallback specKeywords
  dsimp only
  have hlen : (fun w : String => decide (w.length > 3)) "" = false := by decide
  have h1 : (jsSplitWS (jsToLower (title ++ " " ++ description))).filter
        (fun w : String => decide (w.length > 3)) =
      (specTokens (jsToLower (title ++ " " ++ description))).filter
        (fun w : String => decide (w.length > 3)) :=
    (splitWS_spec_filter _ hlen (jsToLower (title ++ " " ++ description)).toList).1 []
  rw [h1, List.filter_filter]
  have h2 : (specTokens (jsToLower (title ++ " " ++ description))).filter
        (fun w : String => !pureNumeric w && decide (w.length > 3)) =
      (specTokens (jsToLower (title ++ " " ++ description))).filter
        (fun w : String => decide (w.length > 3) && !pureNumeric w) := by
    congr 1
    funext w
    exact Bool.and_comm _ _
  rw [h2]
  set toks := ((specTokens (jsToLower (title ++ " " ++ description))).filter
    (fun w : String => decide (w.length > 3) && !pureNumeric w)).take 5 with htoks
  cases toks with
  | nil => simp
  | cons a t => simp

/-- Extracting issues from an all-well-formed batch succeeds. -/
theorem getIssues?_map_wellFormed (batch : List Issue) :
    getIssues? (batch.map RawIssue.wellFormed) = some batch := by
  induction batch with
  | nil => rfl
  | cons i t ih => simp [getIssues?, ih]

/-- On a well-formed batch, the parsed-reply branch of `analyzeBatch`
produces one `parsedRow` per candidate, indexed positionally. -/
theorem analyzeBatch_wellFormed_gparsed (entries : List ParsedEntry)
    (batch : List Issue) :
    analyzeBatch (.gparsed entries) (batch.map RawIssue.wellFormed) =
      .ok (batch.enum.map (fun p => parsedRow entries p.1 p.2)) := by
  simp [analyzeBatch, getIssues?_map_wellFormed]

/-- Mapping a projection of the element over an enumeration forgets the
indices. -/
theorem enum_map_proj {α β : Type} (l : List α) (g : α → β) :
    l.enum.map (fun p => g p.2) = l.map g := by
  rw [show (fun p : Nat × α => g p.2) = g ∘ Prod.snd from rfl, ← List.map_map,
    List.enum_map_snd]

/-- C10: for every outcome of the generation-service call, the batch scorer
returns exactly one `SimilarIssue` per input candidate, in input order,
with key, summary and status copied, description defaulted to the empty
string and priority defaulted to "Unknown". -/
theorem claim_C10 (outcome : GenOutcome) (batch : List Issue) :
    ∃ rs, analyzeBatch outcome (batch.map RawIssue.wellFormed) = .ok rs ∧
      rs.length = batch.length ∧
      rs.map (fun r => r.key) = batch.map (fun i => i.key) ∧
      rs.map (fun r => r.summary) = batch.map (fun i => i.summary) ∧
      rs.map (fun r => r.status) = batch.map (fun i => i.status) ∧
      rs.map (fun r => r.description) = batch.map (fun i => jsOrStr i.description "") ∧
      rs.map (fun r => r.priority) = batch.map (fun i => jsOrStr i.priority "Unknown") := by
  cases outcome with
  | gparsed entries =>
    refine ⟨batch.enum.map (fun p => parsedRow entries p.1 p.2),
      analyzeBatch_wellFormed_gparsed entries batch, by simp, ?_, ?_, ?_, ?_, ?_⟩
    · rw [List.map_map]; exact enum_map_proj batch (fun i => i.key)
    · rw [List.map_map]; exact enum_map_proj batch (fun i => i.summary)
    · rw [List.map_map]; exact enum_map_proj batch (fun i => i.status)
    · rw [List.map_map]; exact enum_map_proj batch (fun i => jsOrStr i.description "")
    · rw [List.map_map]; exact enum_map_proj batch (fun i => jsOrStr i.priority "Unknown")
  | gthrow =>
    refine ⟨batch.map createFallbackSimilarity,
      by simp [analyzeBatch, getIssues?_map_wellFormed], by simp, ?_, ?_, ?_, ?_, ?_⟩ <;>
    · rw [List.map_map]
      rfl
  | gnoContent =>
    refine ⟨batch.map createFallbackSimilarity,
      by simp [analyzeBatch, getIssues?_map_wellFormed], by simp, ?_, ?_, ?_, ?_, ?_⟩ <;>
    · rw [List.map_map]
      rfl
  | gunparsable =>
    refine ⟨batch.map createFallbackSimilarity,
      by simp [analyzeBatch, getIssues?_map_wellFormed], by simp, ?_, ?_, ?_, ?_, ?_⟩ <;>
    · rw [List.map_map]
      rfl

/-- C5 counterexample: the sole candidate's reply entry is matched by index
but carries no similarity score; the scorer then emits similarity 0 (the
JavaScript `|| 0` default, clamped) with reason "AI analysis completed",
not similarity 0.1 with reason "Analysis failed" as the claim states. -/
theorem claim_C5_cex :
    analyzeBatch (.gparsed [⟨some 1, none, none⟩]) [.wellFormed issueK1] =
      .ok [⟨"K-1", "Summary one", "", "Open", "Unknown", .val 0,
        "AI analysis completed"⟩] ∧
    (JNum.val 0 ≠ JNum.val (mkRat 1 10) ∧
      "AI analysis completed" ≠ "Analysis failed") := by decide

/-- C5 (amended): when the reply parses as a structured list, a candidate
with no entry matching its positional index receives similarity 0.1 with
reason "Analysis failed"; a candidate whose matching entry exists but
carries a missing similarity score receives similarity 0 (the falsy
default, clamped), with the entry's reason defaulted to "AI analysis
completed". -/
theorem claim_C5 (batch : List Issue) (entries : List ParsedEntry) (i : Nat)
    (h : i < batch.length) :
    ∃ rs, analyzeBatch (.gparsed entries) (batch.map RawIssue.wellFormed) = .ok rs ∧
      (entries.find? (fun a => a.issueIndex = some (i + 1)) = none →
        rs[i]? = some (rowOf batch[i] (.val (mkRat 1 10)) "Analysis failed")) ∧
      (∀ en, entries.find? (fun a => a.issueIndex = some (i + 1)) = some en →
        en.similarity = none →
        rs[i]? = some (rowOf batch[i] (.val 0)
          (jsOrStr en.reason "AI analysis completed"))) := by
  refine ⟨batch.enum.map (fun p => parsedRow entries p.1 p.2),
    analyzeBatch_wellFormed_gparsed entries batch, ?_, ?_⟩
  all_goals
    have hidx : (batch.enum.map (fun p => parsedRow entries p.1 p.2))[i]? =
        some (parsedRow entries i batch[i]) := by
      rw [List.getElem?_map, List.getElem?_enum, List.getElem?_eq_getElem h]
      rfl
  · intro hfind
    rw [hidx]
    have hsim : clamp01 (some (.num (mkRat 1 10))) = .val (mkRat 1 10) := by decide
    simp [parsedRow, hfind, defaultAnalysis, hsim, jsOrStr, rowOf]
  · intro en hfind hsimnone
    rw [hidx]
    have hsim : clamp01 none = JNum.val 0 := by decide
    simp [parsedRow, hfind, hsimnone, hsim, rowOf]

/-- C5 witness: a two-candidate batch whose single reply entry points at
the second candidate but omits the score: the first candidate falls back to
0.1/"Analysis failed", the second gets similarity 0 with the defaulted
reason. -/
theorem claim_C5_witness :
    ∃ rs,
      analyzeBatch (.gparsed [⟨some 2, none, some ""⟩])
          ([issueK1, keyedIssue "K-2"].map RawIssue.wellFormed) = .ok rs ∧
      rs[0]? = some (rowOf issueK1 (.val (mkRat 1 10)) "Analysis failed") ∧
      rs[1]? = some (rowOf (keyedIssue "K-2") (.val 0)
        (jsOrStr (some "") "AI analysis completed")) := by
  obtain ⟨rs, hok, hmiss, -⟩ :=
    claim_C5 [issueK1, keyedIssue "K-2"] [⟨some 2, none, some ""⟩] 0 (by decide)
  obtain ⟨rs', hok', -, hfound⟩ :=
    claim_C5 [issueK1, keyedIssue "K-2"] [⟨some 2, none, some ""⟩] 1 (by decide)
  injection hok.symm.trans hok' with hr
  subst hr
  refine ⟨rs, hok, hmiss (by decide), ?_⟩
  exact hfound ⟨some 2, none, some ""⟩ (by decide) rfl

/-- The clamp either propagates NaN or lands in the closed unit interval. -/
theorem clamp01_cases (v : Option JSVal) :
    clamp01 v = .nan ∨ ∃ q, clamp01 v = .val q ∧ 0 ≤ q ∧ q ≤ 1 := by
  cases h : toNumber (jsOrZero v) with
  | nan =>
    left
    simp [clamp01, h, jsMax, jsMin]
  | val x =>
    right
    refine ⟨min (max x 0) 1, by simp [clamp01, h, jsMax, jsMin], ?_, min_le_right _ _⟩
    exact le_min (le_max_right x 0) zero_le_one

/-- Every similarity emitted by `analyzeBatch` is NaN or lies in [0,1]. -/
theorem analyzeBatch_sim (outcome : GenOutcome) (batch : List RawIssue)
    (rs : List SimilarIssue) (hok : analyzeBatch outcome batch = .ok rs) :
    ∀ r ∈ rs, r.similarity = .nan ∨ ∃ q, r.similarity = .val q ∧ 0 ≤ q ∧ q ≤ 1 := by
  intro r hr
  cases hi : getIssues? batch with
  | none => simp [analyzeBatch, hi] at hok
  | some issues =>
    have hfb : r ∈ issues.map createFallbackSimilarity →
        r.similarity = .nan ∨ ∃ q, r.similarity = .val q ∧ 0 ≤ q ∧ q ≤ 1 := by
      intro hmem
      obtain ⟨i, -, hri⟩ := List.mem_map.mp hmem
      right
      exact ⟨mkRat 1 10, by rw [← hri]; rfl, by decide, by decide⟩
    cases outcome with
    | gthrow =>
      rw [analyzeBatch, hi] at hok
      rw [← Except.ok.inj hok] at hr
      exact hfb hr
    | gnoContent =>
      rw [analyzeBatch, hi] at hok
      rw [← Except.ok.inj hok] at hr
      exact hfb hr
    | gunparsable =>
      rw [analyzeBatch, hi] at hok
      rw [← Except.ok.inj hok] at hr
      exact hfb hr
    | gparsed entries =>
      rw [analyzeBatch, hi] at hok
      have hr' : r ∈ issues.enum.map (fun p => parsedRow entries p.1 p.2) := by
        rw [← Except.ok.inj hok] at hr
        exact hr
      obtain ⟨p, -, hrp⟩ := List.mem_map.mp hr'
      have : r.similarity = clamp01
          (((entries.find? (fun a => a.issueIndex = some (p.1 + 1))).getD
            defaultAnalysis).similarity) := by
        rw [← hrp]; rfl
      rw [this]
      exact clamp01_cases _

/-- Bind on a success reduces. -/
theorem exceptBind_ok {e a b : Type} (x : a) (f : a → Except e b) :
    (Except.ok x : Except e a) >>= f = f x := rfl

/-- Bind on a failure short-circuits. -/
theorem exceptBind_error {e a b : Type} (er : e) (f : a → Except e b) :
    (Except.error er : Except e a) >>= f = .error er := rfl

/-- Every similarity accumulated by the batch loop is NaN or lies in [0,1]. -/
theorem analyzeGo_sim (gen : Nat → GenOutcome) :
    ∀ fuel b issues rs, analyzeGo gen fuel b issues = .ok rs →
      ∀ r ∈ rs, r.similarity = .nan ∨ ∃ q, r.similarity = .val q ∧ 0 ≤ q ∧ q ≤ 1 := by
  intro fuel
  induction fuel with
  | zero =>
    intro b issues rs h r hr
    cases issues with
    | nil =>
      simp [analyzeGo] at h
      subst h
      cases hr
    | cons x rest =>
      simp [analyzeGo] at h
      subst h
      cases hr
  | succ n ih =>
    intro b issues rs h r hr
    cases issues with
    | nil =>
      simp [analyzeGo] at h
      subst h
      cases hr
    | cons x rest =>
      cases hb : analyzeBatch (gen b) (x :: rest.take 4) with
      | error e => simp [analyzeGo, hb, exceptBind_error] at h
      | ok br =>
        cases hg : analyzeGo gen n (b + 1) (rest.drop 4) with
        | error e => simp [analyzeGo, hb, hg, exceptBind_ok, exceptBind_error] at h
        | ok more =>
          simp [analyzeGo, hb, hg, exceptBind_ok] at h
          subst h
          rcases List.mem_append.mp hr with hm | hm
          · exact analyzeBatch_sim (gen b) (x :: rest.take 4) br hb r hm
          · exact ih (b + 1) (rest.drop 4) more hg r hm

/-- Membership through the stable descending insertion. -/
theorem mem_insertDesc (x a : SimilarIssue) (l : List SimilarIssue) :
    a ∈ insertDesc x l ↔ a = x ∨ a ∈ l := by
  induction l with
  | nil => simp [insertDesc]
  | cons y ys ih =>
    by_cases hgt : simGT y x
    · simp [insertDesc, hgt, ih]
      tauto
    · simp [insertDesc, hgt]

/-- Membership through the stable descending sort. -/
theorem mem_sortDesc (a : SimilarIssue) (l : List SimilarIssue) :
    a ∈ sortDesc l ↔ a ∈ l := by
  induction l with
  | nil => simp [sortDesc]
  | cons x xs ih => simp [sortDesc, mem_insertDesc, ih]

/-- C4: every `SimilarityResult` produced by the similarity scorer carries
a similarity in the closed interval [0,1], for every generation-service
behaviour (parsed, out-of-range, non-numeric, missing, unparsable or
thrown): the clamp bounds every numeric value and the strict-positivity
filter removes the NaN that a non-numeric score coerces to. -/
theorem claim_C4 (gen : Nat → GenOutcome) (existingIssues : List RawIssue)
    (rs : List SimilarIssue)
    (h : analyzeIssueSimilarity gen existingIssues = .ok rs) :
    ∀ r ∈ rs, ∃ q, r.similarity = .val q ∧ 0 ≤ q ∧ q ≤ 1 := by
  intro r hr
  cases hg : analyzeGo gen existingIssues.length 0 existingIssues with
  | error e => simp [analyzeIssueSimilarity, hg, exceptBind_error] at h
  | ok results =>
    simp [analyzeIssueSimilarity, hg, exceptBind_ok] at h
    subst h
    rw [mem_sortDesc] at hr
    have hmem := List.mem_filter.mp hr
    have hpos : simPos r = true := hmem.2
    rcases analyzeGo_sim gen existingIssues.length 0 existingIssues results hg
        r hmem.1 with hnan | ⟨q, hq, h0, h1⟩
    · simp [simPos, hnan] at hpos
    · exact ⟨q, hq, h0, h1⟩

/-- C4 witness: a reply scoring the sole candidate at 7 yields a result
clamped to 1, inside [0,1]. -/
theorem claim_C4_witness :
    ∃ q, (rowOf issueK1 (.val 1) "far out of range").similarity = JNum.val q ∧
      0 ≤ q ∧ q ≤ 1 :=
  claim_C4 (fun _ => .gparsed [⟨some 1, some (.num 7), some "far out of range"⟩])
    [.wellFormed issueK1] [rowOf issueK1 (.val 1) "far out of range"] (by decide)
    (rowOf issueK1 (.val 1) "far out of range") (by decide)

/-- A strictly positive in-range numeric score passes through the clamp
unchanged (it is not falsy, so `|| 0` keeps it). -/
theorem clamp01_num (s : ℚ) (h0 : 0 < s) (h1 : s ≤ 1) :
    clamp01 (some (.num s)) = .val s := by
  have hf : jsFalsy (.num s) = false := by
    simp only [jsFalsy, decide_eq_false_iff_not]
    exact h0.ne'
  simp [clamp01, jsOrZero, hf, toNumber, jsMax, jsMin, max_eq_left h0.le,
    min_eq_left h1]

/-- Inserting an element that outranks (weakly) every element of an
appended tail never crosses into the tail. -/
theorem insertDesc_append (x : SimilarIssue) (l fbs : List SimilarIssue)
    (hfb : ∀ f ∈ fbs, simGT f x = false) :
    insertDesc x (l ++ fbs) = insertDesc x l ++ fbs := by
  induction l with
  | nil =>
    cases fbs with
    | nil => rfl
    | cons f t =>
      have hf := hfb f (by simp)
      simp [insertDesc, hf]
  | cons y ys ih =>
    by_cases hgt : simGT y x <;> simp [insertDesc, hgt, ih]

/-- Sorting a list followed by an already-sorted tail that every head
element weakly outranks sorts the head in place. -/
theorem sortDesc_append (l fbs : List SimilarIssue)
    (h1 : ∀ x ∈ l, ∀ f ∈ fbs, simGT f x = false)
    (h2 : sortDesc fbs = fbs) :
    sortDesc (l ++ fbs) = sortDesc l ++ fbs := by
  induction l with
  | nil => simpa using h2
  | cons x xs ih =>
    simp only [List.cons_append, sortDesc, List.append_eq]
    rw [ih (fun y hy f hf => h1 y (by simp [hy]) f hf)]
    exact insertDesc_append x (sortDesc xs) fbs (h1 x (by simp))

/-- The fallback rows always pass the strict-positivity filter. -/
theorem simPos_fallback (i : Issue) :
    simPos (createFallbackSimilarity i) = true := by
  have h : simPos (createFallbackSimilarity i) = decide (0 < mkRat 1 10) := rfl
  rw [h]
  decide

/-- A fallback row never outranks a row whose score is at least 0.1. -/
theorem simGT_fallback_scored (j i : Issue) (s : ℚ) (r : Option String)
    (hs : mkRat 1 10 ≤ s) :
    simGT (createFallbackSimilarity j) (scoredRow i s r) = false := by
  have h : simGT (createFallbackSimilarity j) (scoredRow i s r) =
      decide (s < mkRat 1 10) := rfl
  rw [h]
  exact decide_eq_false (not_lt.mpr hs)

/-- C8: with 7 candidates, a first-batch reply carrying real scores (each
between 0.1 and 1) and a second generation call that fails, the scorer
returns the five first-batch rows with their parsed scores sorted
descending, followed by the two fallback rows (similarity 0.1, reason
"Unable to perform detailed analysis") of the second batch. -/
theorem claim_C8 (i1 i2 i3 i4 i5 i6 i7 : Issue) (s1 s2 s3 s4 s5 : ℚ)
    (r1 r2 r3 r4 r5 : Option String) (gen : Nat → GenOutcome)
    (hg0 : gen 0 = .gparsed [⟨some 1, some (.num s1), r1⟩,
      ⟨some 2, some (.num s2), r2⟩, ⟨some 3, some (.num s3), r3⟩,
      ⟨some 4, some (.num s4), r4⟩, ⟨some 5, some (.num s5), r5⟩])
    (hg1 : gen 1 = .gthrow)
    (hs1 : mkRat 1 10 ≤ s1 ∧ s1 ≤ 1) (hs2 : mkRat 1 10 ≤ s2 ∧ s2 ≤ 1)
    (hs3 : mkRat 1 10 ≤ s3 ∧ s3 ≤ 1) (hs4 : mkRat 1 10 ≤ s4 ∧ s4 ≤ 1)
    (hs5 : mkRat 1 10 ≤ s5 ∧ s5 ≤ 1) :
    analyzeIssueSimilarity gen
        ([i1, i2, i3, i4, i5, i6, i7].map RawIssue.wellFormed) =
      .ok (sortDesc [scoredRow i1 s1 r1, scoredRow i2 s2 r2, scoredRow i3 s3 r3,
          scoredRow i4 s4 r4, scoredRow i5 s5 r5] ++
        [createFallbackSimilarity i6, createFallbackSimilarity i7]) := by
  have hpos : (0 : ℚ) < mkRat 1 10 := by decide
  have hp1 : 0 < s1 := lt_of_lt_of_le hpos hs1.1
  have hp2 : 0 < s2 := lt_of_lt_of_le hpos hs2.1
  have hp3 : 0 < s3 := lt_of_lt_of_le hpos hs3.1
  have hp4 : 0 < s4 := lt_of_lt_of_le hpos hs4.1
  have hp5 : 0 < s5 := lt_of_lt_of_le hpos hs5.1
  have hc1 := clamp01_num s1 hp1 hs1.2
  have hc2 := clamp01_num s2 hp2 hs2.2
  have hc3 := clamp01_num s3 hp3 hs3.2
  have hc4 := clamp01_num s4 hp4 hs4.2
  have hc5 := clamp01_num s5 hp5 hs5.2
  have hq1 : simPos (scoredRow i1 s1 r1) = true := decide_eq_true hp1
  have hq2 : simPos (scoredRow i2 s2 r2) = true := decide_eq_true hp2
  have hq3 : simPos (scoredRow i3 s3 r3) = true := decide_eq_true hp3
  have hq4 : simPos (scoredRow i4 s4 r4) = true := decide_eq_true hp4
  have hq5 : simPos (scoredRow i5 s5 r5) = true := decide_eq_true hp5
  have hgo : analyzeIssueSimilarity gen
      ([i1, i2, i3, i4, i5, i6, i7].map RawIssue.wellFormed) =
      .ok (sortDesc (List.filter simPos
        [scoredRow i1 s1 r1, scoredRow i2 s2 r2, scoredRow i3 s3 r3,
          scoredRow i4 s4 r4, scoredRow i5 s5 r5,
          createFallbackSimilarity i6, createFallbackSimilarity i7])) := by
    simp [analyzeIssueSimilarity, analyzeGo, hg0, hg1, analyzeBatch, getIssues?,
      exceptBind_ok, List.enum, List.enumFrom, parsedRow, defaultAnalysis,
      hc1, hc2, hc3, hc4, hc5, scoredRow]
  rw [hgo]
  rw [show List.filter simPos
      [scoredRow i1 s1 r1, scoredRow i2 s2 r2, scoredRow i3 s3 r3,
        scoredRow i4 s4 r4, scoredRow i5 s5 r5,
        createFallbackSimilarity i6, createFallbackSimilarity i7] =
      [scoredRow i1 s1 r1, scoredRow i2 s2 r2, scoredRow i3 s3 r3,
        scoredRow i4 s4 r4, scoredRow i5 s5 r5,
        createFallbackSimilarity i6, createFallbackSimilarity i7] from by
    simp [List.filter_cons, hq1, hq2, hq3, hq4, hq5, simPos_fallback]]
  rw [show ([scoredRow i1 s1 r1, scoredRow i2 s2 r2, scoredRow i3 s3 r3,
      scoredRow i4 s4 r4, scoredRow i5 s5 r5,
      createFallbackSimilarity i6, createFallbackSimilarity i7] :
        List SimilarIssue) =
      [scoredRow i1 s1 r1, scoredRow i2 s2 r2, scoredRow i3 s3 r3,
        scoredRow i4 s4 r4, scoredRow i5 s5 r5] ++
      [createFallbackSimilarity i6, createFallbackSimilarity i7] from rfl]
  rw [sortDesc_append]
  · intro x hx f hf
    have hff : f = createFallbackSimilarity i6 ∨ f = createFallbackSimilarity i7 := by
      simpa using hf
    have hxx : x = scoredRow i1 s1 r1 ∨ x = scoredRow i2 s2 r2 ∨
        x = scoredRow i3 s3 r3 ∨ x = scoredRow i4 s4 r4 ∨
        x = scoredRow i5 s5 r5 := by
      simpa using hx
    rcases hff with hf' | hf' <;> subst hf' <;>
      rcases hxx with hx' | hx' | hx' | hx' | hx' <;> subst hx' <;>
      first
        | exact simGT_fallback_scored _ _ _ _ hs1.1
        | exact simGT_fallback_scored _ _ _ _ hs2.1
        | exact simGT_fallback_scored _ _ _ _ hs3.1
        | exact simGT_fallback_scored _ _ _ _ hs4.1
        | exact simGT_fallback_scored _ _ _ _ hs5.1
  · have hff : simGT (createFallbackSimilarity i7) (createFallbackSimilarity i6) =
        false := by
      have h : simGT (createFallbackSimilarity i7) (createFallbackSimilarity i6) =
          decide (mkRat 1 10 < mkRat 1 10) := rfl
      rw [h]
      decide
    simp [sortDesc, insertDesc, hff]

/-- C8 witness: the two-batch oracle scoring 0.9/0.8/0.7/0.5/0.3 on the
first five keyed candidates and failing for the second batch. -/
theorem claim_C8_witness :
    analyzeIssueSimilarity genTwoBatch
        ([keyedIssue "K-1", keyedIssue "K-2", keyedIssue "K-3", keyedIssue "K-4",
          keyedIssue "K-5", keyedIssue "K-6", keyedIssue "K-7"].map
            RawIssue.wellFormed) =
      .ok (sortDesc [scoredRow (keyedIssue "K-1") (mkRat 9 10) (some "nearly identical"),
          scoredRow (keyedIssue "K-2") (mkRat 8 10) (some "very similar"),
          scoredRow (keyedIssue "K-3") (mkRat 7 10) (some "likely duplicate"),
          scoredRow (keyedIssue "K-4") (mkRat 5 10) (some "related"),
          scoredRow (keyedIssue "K-5") (mkRat 3 10) (some "some overlap")] ++
        [createFallbackSimilarity (keyedIssue "K-6"),
          createFallbackSimilarity (keyedIssue "K-7")]) :=
  claim_C8 (keyedIssue "K-1") (keyedIssue "K-2") (keyedIssue "K-3")
    (keyedIssue "K-4") (keyedIssue "K-5") (keyedIssue "K-6") (keyedIssue "K-7")
    (mkRat 9 10) (mkRat 8 10) (mkRat 7 10) (mkRat 5 10) (mkRat 3 10)
    (some "nearly identical") (some "very similar") (some "likely duplicate")
    (some "related") (some "some overlap") genTwoBatch rfl rfl
    (by decide) (by decide) (by decide) (by decide) (by decide)

/-- The recommendation builder never returns an empty sequence: it emits
either the single affirmative line or the banded guidance closed by the
review prompt. -/
theorem generateRecommendations_ne_nil (l : List SimilarIssue) :
    generateRecommendations l ≠ [] := by
  unfold generateRecommendations
  split
  · simp
  · simp

/-- Every success of the orchestrator's try block carries a non-empty
recommendations sequence. -/
theorem core_ok_recommendations (env : Env) (pk t d : String)
    (a : DuplicateAnalysis) (h : checkForDuplicatesCore env pk t d = .ok a) :
    a.recommendations ≠ [] := by
  by_cases hlen : (searchSimilarIssues env pk t d).length = 0
  · simp [checkForDuplicatesCore, hlen] at h
    subst h
    decide
  · cases hg : analyzeIssueSimilarity env.gen (searchSimilarIssues env pk t d) with
    | error e => simp [checkForDuplicatesCore, hlen, hg, exceptBind_error] at h
    | ok rs =>
      simp [checkForDuplicatesCore, hlen, hg, exceptBind_ok] at h
      subst h
      exact generateRecommendations_ne_nil _

/-- C1: `checkForDuplicates` is total (it returns a `DuplicateAnalysis` for
every collaborator behaviour, throwing ones included) and when the internal
flow fails it returns the cautionary safe-proceed verdict:
`hasPotentialDuplicates = false` with one (non-empty) recommendation;
moreover the recommendations sequence is non-empty on every path. -/
theorem claim_C1 (env : Env) (projectKey title description : String) :
    (∀ e, checkForDuplicatesCore env projectKey title description = .error e →
      checkForDuplicates env projectKey title description = cautionVerdict) ∧
    cautionVerdict.hasPotentialDuplicates = false ∧
    cautionVerdict.recommendations ≠ [] ∧
    (checkForDuplicates env projectKey title description).recommendations ≠ [] := by
  refine ⟨?_, rfl, by decide, ?_⟩
  · intro e he
    unfold checkForDuplicates
    rw [he]
  · unfold checkForDuplicates
    cases hc : checkForDuplicatesCore env projectKey title description with
    | ok a =>
      exact core_ok_recommendations env projectKey title description a hc
    | error e =>
      show cautionVerdict.recommendations ≠ []
      decide

/-- C1 witness: a search oracle delivering a malformed record makes the try
block throw, and the returned analysis is exactly the cautionary verdict. -/
theorem claim_C1_witness :
    checkForDuplicates envMalformed "PROJ" "Login fails" "cannot log in" =
      cautionVerdict ∧
    cautionVerdict.hasPotentialDuplicates = false ∧
    cautionVerdict.recommendations ≠ [] :=
  ⟨(claim_C1 envMalformed "PROJ" "Login fails" "cannot log in").1 typeErr (by decide),
   (claim_C1 envMalformed "PROJ" "Login fails" "cannot log in").2.1,
   (claim_C1 envMalformed "PROJ" "Login fails" "cannot log in").2.2.1⟩

end ZapierAgent
